import Mathlib

/-!
Verification development for the speex-safe control-plane layer:
the mode/submode selector enums, the control-function error translation,
the named control accessors built on the `ctl` primitive, the dynamic
(mode-polymorphic) coder facade, the encoder/decoder handle lifecycle,
and the stereo fold state.

Machine integers are modelled as `Int` (no arithmetic in this layer can
overflow: the code only stores, compares and forwards them).  A Rust
panic is modelled as `Option.none`; normal return as `Option.some`.
The `f32` buffers of `set_vbr_quality`/`get_vbr_quality` are carried
opaquely as their bit pattern (an `Int`): the wrapper never computes on
them, it only passes them through the control protocol.
-/

namespace SpeexSafe

/-! ### Request-code and mode-id constants

Numeric constants from the speex engine header, re-exported by the
`speex-sys` bindings crate. -/

def SPEEX_MODEID_NB : Int := 0

def SPEEX_MODEID_WB : Int := 1

def SPEEX_MODEID_UWB : Int := 2

def SPEEX_GET_FRAME_SIZE : Int := 3

def SPEEX_SET_QUALITY : Int := 4

def SPEEX_SET_VBR : Int := 12

def SPEEX_GET_VBR : Int := 13

def SPEEX_SET_VBR_QUALITY : Int := 14

def SPEEX_GET_VBR_QUALITY : Int := 15

def SPEEX_SET_BITRATE : Int := 18

def SPEEX_GET_BITRATE : Int := 19

def SPEEX_SET_SAMPLING_RATE : Int := 24

def SPEEX_GET_SAMPLING_RATE : Int := 25

def SPEEX_RESET_STATE : Int := 26

def SPEEX_SET_VAD : Int := 30

def SPEEX_GET_VAD : Int := 31

def SPEEX_SET_ABR : Int := 32

def SPEEX_GET_ABR : Int := 33

def SPEEX_SET_SUBMODE_ENCODING : Int := 36

def SPEEX_GET_SUBMODE_ENCODING : Int := 37

def SPEEX_GET_LOOKAHEAD : Int := 39

def SPEEX_SET_PLC_TUNING : Int := 40

def SPEEX_GET_PLC_TUNING : Int := 41

def SPEEX_SET_VBR_MAX_BITRATE : Int := 42

def SPEEX_GET_VBR_MAX_BITRATE : Int := 43

def SPEEX_SET_HIGHPASS : Int := 44

def SPEEX_GET_HIGHPASS : Int := 45

/-! ### Mode and submode selectors (`mode/mod.rs`) -/

/-- Possible modes for the encoder and decoder (`ModeId` in `mode/mod.rs`). -/
inductive ModeId where
  | NarrowBand
  | WideBand
  | UltraWideBand
deriving DecidableEq, Repr

/-- The `#[repr(i32)]` discriminant of a `ModeId` (what `as i32` yields). -/
def ModeId.toI32 : ModeId → Int
  | .NarrowBand => SPEEX_MODEID_NB
  | .WideBand => SPEEX_MODEID_WB
  | .UltraWideBand => SPEEX_MODEID_UWB

/-- Rust `impl From<i32> for ModeId`: `none` models the `panic!("Invalid mode id")`
arm of the Rust `match`. -/
def ModeId.fromI32 (value : Int) : Option ModeId :=
  if value = SPEEX_MODEID_NB then some .NarrowBand
  else if value = SPEEX_MODEID_WB then some .WideBand
  else if value = SPEEX_MODEID_UWB then some .UltraWideBand
  else none

/-- Possible submodes for the narrowband mode (`NbSubmodeId`). -/
inductive NbSubmodeId where
  | VocoderLike
  | ExtremeLow
  | VeryLow
  | Low
  | Medium
  | High
  | VeryHigh
  | ExtremeHigh
deriving DecidableEq, Repr

/-- The `#[repr(i32)]` discriminant of an `NbSubmodeId`. -/
def NbSubmodeId.toI32 : NbSubmodeId → Int
  | .VocoderLike => 1
  | .ExtremeLow => 8
  | .VeryLow => 2
  | .Low => 3
  | .Medium => 4
  | .High => 5
  | .VeryHigh => 6
  | .ExtremeHigh => 7

/-- Rust `impl From<i32> for NbSubmodeId`: `none` models the
`panic!("Invalid submode id")` arm. -/
def NbSubmodeId.fromI32 (value : Int) : Option NbSubmodeId :=
  if value = 1 then some .VocoderLike
  else if value = 2 then some .VeryLow
  else if value = 3 then some .Low
  else if value = 4 then some .Medium
  else if value = 5 then some .High
  else if value = 6 then some .VeryHigh
  else if value = 7 then some .ExtremeHigh
  else if value = 8 then some .ExtremeLow
  else none

/-- Possible submodes for the wideband mode (`WbSubmodeId`). -/
inductive WbSubmodeId where
  | NoQuantize
  | QuantizedLow
  | QuantizedMedium
  | QuantizedHigh
deriving DecidableEq, Repr

/-- The `#[repr(i32)]` discriminant of a `WbSubmodeId`. -/
def WbSubmodeId.toI32 : WbSubmodeId → Int
  | .NoQuantize => 1
  | .QuantizedLow => 2
  | .QuantizedMedium => 3
  | .QuantizedHigh => 4

/-- Rust `impl From<i32> for WbSubmodeId`: `none` models the panic arm. -/
def WbSubmodeId.fromI32 (value : Int) : Option WbSubmodeId :=
  if value = 1 then some .NoQuantize
  else if value = 2 then some .QuantizedLow
  else if value = 3 then some .QuantizedMedium
  else if value = 4 then some .QuantizedHigh
  else none

/-- The single submode for the UWB mode (`UwbSubmodeId`). -/
inductive UwbSubmodeId where
  | Only
deriving DecidableEq, Repr

/-- The `#[repr(i32)]` discriminant of the UWB submode
(`WbSubmodeId::NoQuantize as i32`, i.e. `1`). -/
def UwbSubmodeId.toI32 : UwbSubmodeId → Int
  | .Only => 1

/-- Rust `impl From<i32> for UwbSubmodeId`: `none` models the panic arm. -/
def UwbSubmodeId.fromI32 (value : Int) : Option UwbSubmodeId :=
  if value = 1 then some .Only
  else none

/-! ### Control-function error translation (`mode/mod.rs`) -/

/-- Error type for the control functions of the encoder and decoder. -/
inductive ControlError where
  | UnknownRequest (code : Int)
  | InvalidParameter
deriving DecidableEq, Repr

/-- Source `ControlFunctions::check_error`: translates the engine's integer result
into a `Result`.  `none` models a panic: either the `_ => panic!` arm for a
result outside `{0, -1, -2}`, or `param.unwrap()` panicking when the result
is `-1` and no request code was supplied. -/
def check_error (err_code : Int) (param : Option Int) :
    Option (Except ControlError Unit) :=
  if err_code = 0 then some (Except.ok ())
  else if err_code = -1 then
    param.map (fun code => Except.error (ControlError.UnknownRequest code))
  else if err_code = -2 then some (Except.error ControlError.InvalidParameter)
  else none

/-! ### The `ctl` primitive and the named accessor operations

`ControlFunctions::ctl(&mut self, request, ptr)` forwards to the engine's
control entry point through a single in/out buffer.  A shallow embedding:
a `ctl` implementation is a function from the request code and the buffer
value (the scalar behind the pointer) and the opaque engine state to
either a `ControlError` or the written-back buffer value and the new
engine state. -/

def Ctl (sigma : Type) : Type :=
  Int → Int → sigma → Except ControlError (Int × sigma)

namespace ControlFunctions

variable {sigma : Type}

/-- Source `get_frame_size`: zero-initialized out-buffer, `ctl(SPEEX_GET_FRAME_SIZE)`,
`.unwrap()` (modelled by `none` on the error branch), return the buffer. -/
def get_frame_size (ctl : Ctl sigma) (s : sigma) : Option (Int × sigma) :=
  match ctl SPEEX_GET_FRAME_SIZE 0 s with
  | Except.ok (v, s1) => some (v, s1)
  | Except.error _ => none

/-- Source `set_vbr`: booleans are marshalled as `if vbr { 1 } else { 0 }`. -/
def set_vbr (ctl : Ctl sigma) (vbr : Bool) (s : sigma) : Option sigma :=
  match ctl SPEEX_SET_VBR (if vbr then 1 else 0) s with
  | Except.ok (_, s1) => some s1
  | Except.error _ => none

/-- Source `get_vbr`: reads the out-buffer back as `state != 0`. -/
def get_vbr (ctl : Ctl sigma) (s : sigma) : Option (Bool × sigma) :=
  match ctl SPEEX_GET_VBR 0 s with
  | Except.ok (v, s1) => some (decide (v ≠ 0), s1)
  | Except.error _ => none

/-- Source `set_vbr_quality`: the `f32` payload is carried opaquely. -/
def set_vbr_quality (ctl : Ctl sigma) (quality : Int) (s : sigma) :
    Option sigma :=
  match ctl SPEEX_SET_VBR_QUALITY quality s with
  | Except.ok (_, s1) => some s1
  | Except.error _ => none

/-- Source `get_vbr_quality`: the `f32` payload is carried opaquely. -/
def get_vbr_quality (ctl : Ctl sigma) (s : sigma) : Option (Int × sigma) :=
  match ctl SPEEX_GET_VBR_QUALITY 0 s with
  | Except.ok (v, s1) => some (v, s1)
  | Except.error _ => none

/-- Source `set_vad`: booleans are marshalled as `if vad { 1 } else { 0 }`. -/
def set_vad (ctl : Ctl sigma) (vad : Bool) (s : sigma) : Option sigma :=
  match ctl SPEEX_SET_VAD (if vad then 1 else 0) s with
  | Except.ok (_, s1) => some s1
  | Except.error _ => none

/-- Source `get_vad`: reads the out-buffer back as `state != 0`. -/
def get_vad (ctl : Ctl sigma) (s : sigma) : Option (Bool × sigma) :=
  match ctl SPEEX_GET_VAD 0 s with
  | Except.ok (v, s1) => some (decide (v ≠ 0), s1)
  | Except.error _ => none

/-- Source `set_abr`. -/
def set_abr (ctl : Ctl sigma) (abr : Int) (s : sigma) : Option sigma :=
  match ctl SPEEX_SET_ABR abr s with
  | Except.ok (_, s1) => some s1
  | Except.error _ => none

/-- Source `get_abr`. -/
def get_abr (ctl : Ctl sigma) (s : sigma) : Option (Int × sigma) :=
  match ctl SPEEX_GET_ABR 0 s with
  | Except.ok (v, s1) => some (v, s1)
  | Except.error _ => none

/-- Source `set_quality`. -/
def set_quality (ctl : Ctl sigma) (quality : Int) (s : sigma) : Option sigma :=
  match ctl SPEEX_SET_QUALITY quality s with
  | Except.ok (_, s1) => some s1
  | Except.error _ => none

/-- Source `set_bitrate`. -/
def set_bitrate (ctl : Ctl sigma) (bitrate : Int) (s : sigma) : Option sigma :=
  match ctl SPEEX_SET_BITRATE bitrate s with
  | Except.ok (_, s1) => some s1
  | Except.error _ => none

/-- Source `get_bitrate`. -/
def get_bitrate (ctl : Ctl sigma) (s : sigma) : Option (Int × sigma) :=
  match ctl SPEEX_GET_BITRATE 0 s with
  | Except.ok (v, s1) => some (v, s1)
  | Except.error _ => none

/-- Source `set_sampling_rate`. -/
def set_sampling_rate (ctl : Ctl sigma) (samplingrate : Int) (s : sigma) :
    Option sigma :=
  match ctl SPEEX_SET_SAMPLING_RATE samplingrate s with
  | Except.ok (_, s1) => some s1
  | Except.error _ => none

/-- Source `get_sampling_rate`. -/
def get_sampling_rate (ctl : Ctl sigma) (s : sigma) : Option (Int × sigma) :=
  match ctl SPEEX_GET_SAMPLING_RATE 0 s with
  | Except.ok (v, s1) => some (v, s1)
  | Except.error _ => none

/-- Source `reset_state`: passes a null buffer, modelled as value `0`. -/
def reset_state (ctl : Ctl sigma) (s : sigma) : Option sigma :=
  match ctl SPEEX_RESET_STATE 0 s with
  | Except.ok (_, s1) => some s1
  | Except.error _ => none

/-- Source `set_submode_encoding`: booleans are marshalled as `1`/`0`. -/
def set_submode_encoding (ctl : Ctl sigma) (submode : Bool) (s : sigma) :
    Option sigma :=
  match ctl SPEEX_SET_SUBMODE_ENCODING (if submode then 1 else 0) s with
  | Except.ok (_, s1) => some s1
  | Except.error _ => none

/-- Source `get_submode_encoding`: reads the out-buffer back as `state != 0`. -/
def get_submode_encoding (ctl : Ctl sigma) (s : sigma) :
    Option (Bool × sigma) :=
  match ctl SPEEX_GET_SUBMODE_ENCODING 0 s with
  | Except.ok (v, s1) => some (decide (v ≠ 0), s1)
  | Except.error _ => none

/-- Source `get_lookahead`. -/
def get_lookahead (ctl : Ctl sigma) (s : sigma) : Option (Int × sigma) :=
  match ctl SPEEX_GET_LOOKAHEAD 0 s with
  | Except.ok (v, s1) => some (v, s1)
  | Except.error _ => none

/-- Source `set_plc_tuning`. -/
def set_plc_tuning (ctl : Ctl sigma) (tuning : Int) (s : sigma) :
    Option sigma :=
  match ctl SPEEX_SET_PLC_TUNING tuning s with
  | Except.ok (_, s1) => some s1
  | Except.error _ => none

/-- Source `get_plc_tuning`. -/
def get_plc_tuning (ctl : Ctl sigma) (s : sigma) : Option (Int × sigma) :=
  match ctl SPEEX_GET_PLC_TUNING 0 s with
  | Except.ok (v, s1) => some (v, s1)
  | Except.error _ => none

/-- Source `set_vbr_max_bitrate`. -/
def set_vbr_max_bitrate (ctl : Ctl sigma) (max_bitrate : Int) (s : sigma) :
    Option sigma :=
  match ctl SPEEX_SET_VBR_MAX_BITRATE max_bitrate s with
  | Except.ok (_, s1) => some s1
  | Except.error _ => none

/-- Source `get_vbr_max_bitrate`. -/
def get_vbr_max_bitrate (ctl : Ctl sigma) (s : sigma) : Option (Int × sigma) :=
  match ctl SPEEX_GET_VBR_MAX_BITRATE 0 s with
  | Except.ok (v, s1) => some (v, s1)
  | Except.error _ => none

/-- Source `set_highpass`: booleans are marshalled as `1`/`0`. -/
def set_highpass (ctl : Ctl sigma) (highpass : Bool) (s : sigma) :
    Option sigma :=
  match ctl SPEEX_SET_HIGHPASS (if highpass then 1 else 0) s with
  | Except.ok (_, s1) => some s1
  | Except.error _ => none

/-- Source `get_highpass`: reads the out-buffer back as `state != 0`. -/
def get_highpass (ctl : Ctl sigma) (s : sigma) : Option (Bool × sigma) :=
  match ctl SPEEX_GET_HIGHPASS 0 s with
  | Except.ok (v, s1) => some (decide (v ≠ 0), s1)
  | Except.error _ => none

end ControlFunctions

/-! ### A model of the wrapped engine's control entry point

The engine itself is an external collaborator (spec §1, §6); it is not part
of the wrapped sources.  The model below follows the spec's contract for
it: each setter stores the supplied scalar, each getter returns the stored
scalar (spec §4.3), and an unrecognized request code yields `-1`
(`UnknownRequest`). -/

/-- Modelled from the spec: the engine-side parameter store reachable only
through the control protocol (spec §4.3, "all operations mutate
codec-internal state reachable only through this interface").  One field
per stored scalar; the `f32` VBR quality is carried as its bit pattern. -/
structure EngineState where
  vbr : Int
  vbr_quality : Int
  vad : Int
  abr : Int
  quality : Int
  bitrate : Int
  sampling_rate : Int
  submode_encoding : Int
  lookahead : Int
  plc_tuning : Int
  vbr_max_bitrate : Int
  highpass : Int
  frame_size : Int
deriving DecidableEq, Repr

/-- Modelled from the spec: the engine's control entry point
(`speex_encoder_ctl` / `speex_decoder_ctl`, spec §6): setters store, getters
load, `SPEEX_RESET_STATE` zeroes internal memories (not modelled beyond the
stored parameters), and an unrecognized request code yields `-1`, surfaced
as `UnknownRequest`. -/
def specCtl : Ctl EngineState := fun code v s =>
  if code = SPEEX_GET_FRAME_SIZE then Except.ok (s.frame_size, s)
  else if code = SPEEX_SET_QUALITY then Except.ok (v, { s with quality := v })
  else if code = SPEEX_SET_VBR then Except.ok (v, { s with vbr := v })
  else if code = SPEEX_GET_VBR then Except.ok (s.vbr, s)
  else if code = SPEEX_SET_VBR_QUALITY then
    Except.ok (v, { s with vbr_quality := v })
  else if code = SPEEX_GET_VBR_QUALITY then Except.ok (s.vbr_quality, s)
  else if code = SPEEX_SET_BITRATE then Except.ok (v, { s with bitrate := v })
  else if code = SPEEX_GET_BITRATE then Except.ok (s.bitrate, s)
  else if code = SPEEX_SET_SAMPLING_RATE then
    Except.ok (v, { s with sampling_rate := v })
  else if code = SPEEX_GET_SAMPLING_RATE then Except.ok (s.sampling_rate, s)
  else if code = SPEEX_RESET_STATE then Except.ok (0, s)
  else if code = SPEEX_SET_VAD then Except.ok (v, { s with vad := v })
  else if code = SPEEX_GET_VAD then Except.ok (s.vad, s)
  else if code = SPEEX_SET_ABR then Except.ok (v, { s with abr := v })
  else if code = SPEEX_GET_ABR then Except.ok (s.abr, s)
  else if code = SPEEX_SET_SUBMODE_ENCODING then
    Except.ok (v, { s with submode_encoding := v })
  else if code = SPEEX_GET_SUBMODE_ENCODING then
    Except.ok (s.submode_encoding, s)
  else if code = SPEEX_GET_LOOKAHEAD then Except.ok (s.lookahead, s)
  else if code = SPEEX_SET_PLC_TUNING then
    Except.ok (v, { s with plc_tuning := v })
  else if code = SPEEX_GET_PLC_TUNING then Except.ok (s.plc_tuning, s)
  else if code = SPEEX_SET_VBR_MAX_BITRATE then
    Except.ok (v, { s with vbr_max_bitrate := v })
  else if code = SPEEX_GET_VBR_MAX_BITRATE then
    Except.ok (s.vbr_max_bitrate, s)
  else if code = SPEEX_SET_HIGHPASS then Except.ok (v, { s with highpass := v })
  else if code = SPEEX_GET_HIGHPASS then Except.ok (s.highpass, s)
  else Except.error (ControlError.UnknownRequest code)

/-- A degenerate engine that accepts every request and echoes the buffer:
used to instantiate success-precondition hypotheses at a concrete input. -/
def okCtl : Ctl Unit := fun _ v s => Except.ok (v, s)

/-- The all-zero engine parameter store. -/
def zeroEngine : EngineState :=
  { vbr := 0, vbr_quality := 0, vad := 0, abr := 0, quality := 0, bitrate := 0
    sampling_rate := 0, submode_encoding := 0, lookahead := 0, plc_tuning := 0
    vbr_max_bitrate := 0, highpass := 0, frame_size := 0 }

/-! ### The mode-polymorphic coder facade

`DynamicEncoder` / `DynamicDecoder` live in `mode/encoder.rs` /
`mode/decoder.rs`; only the macros that generate their bodies
(`dynamic_mapping`, `shared_functions` in `mode/mod.rs`) are among the
wrapped sources.  The enum shape is fixed by the `dynamic_mapping` macro
(variants `Nb`, `Wb`, `Uwb`) and spec §4.4. -/

/-- Modelled from the spec: the tagged union of §4.4 holding exactly one
live per-mode handle (variant names `Nb`/`Wb`/`Uwb` as matched by the
`dynamic_mapping` macro).  The contained per-mode handle is modelled by
the engine state its `ctl` reaches. -/
inductive DynamicCoder where
  | Nb (inner : EngineState)
  | Wb (inner : EngineState)
  | Uwb (inner : EngineState)
deriving DecidableEq, Repr

/-- The active tag of the facade. -/
def DynamicCoder.tag : DynamicCoder → ModeId
  | .Nb _ => ModeId.NarrowBand
  | .Wb _ => ModeId.WideBand
  | .Uwb _ => ModeId.UltraWideBand

/-- The contained per-mode handle. -/
def DynamicCoder.inner : DynamicCoder → EngineState
  | .Nb s => s
  | .Wb s => s
  | .Uwb s => s

/-- Facade construction for a chosen mode (`DynamicEncoder::new` matches on
the `ModeId` and builds the corresponding variant). -/
def DynamicCoder.make (mode : ModeId) (s : EngineState) : DynamicCoder :=
  match mode with
  | ModeId.NarrowBand => DynamicCoder.Nb s
  | ModeId.WideBand => DynamicCoder.Wb s
  | ModeId.UltraWideBand => DynamicCoder.Uwb s

namespace DynamicCoder

/-- Facade `get_frame_size` (from `shared_functions`): matches the active
tag and forwards to the contained variant. -/
def get_frame_size : DynamicCoder → Option (Int × DynamicCoder)
  | Nb inner => (ControlFunctions.get_frame_size specCtl inner).map
      (fun p => (p.1, Nb p.2))
  | Wb inner => (ControlFunctions.get_frame_size specCtl inner).map
      (fun p => (p.1, Wb p.2))
  | Uwb inner => (ControlFunctions.get_frame_size specCtl inner).map
      (fun p => (p.1, Uwb p.2))

/-- Facade `set_vbr` (from `shared_functions`). -/
def set_vbr (d : DynamicCoder) (vbr : Bool) : Option DynamicCoder :=
  match d with
  | Nb inner => (ControlFunctions.set_vbr specCtl vbr inner).map Nb
  | Wb inner => (ControlFunctions.set_vbr specCtl vbr inner).map Wb
  | Uwb inner => (ControlFunctions.set_vbr specCtl vbr inner).map Uwb

/-- Facade `get_vbr` (from `shared_functions`). -/
def get_vbr : DynamicCoder → Option (Bool × DynamicCoder)
  | Nb inner => (ControlFunctions.get_vbr specCtl inner).map
      (fun p => (p.1, Nb p.2))
  | Wb inner => (ControlFunctions.get_vbr specCtl inner).map
      (fun p => (p.1, Wb p.2))
  | Uwb inner => (ControlFunctions.get_vbr specCtl inner).map
      (fun p => (p.1, Uwb p.2))

/-- Facade `set_vbr_quality` (from `shared_functions`). -/
def set_vbr_quality (d : DynamicCoder) (quality : Int) : Option DynamicCoder :=
  match d with
  | Nb inner => (ControlFunctions.set_vbr_quality specCtl quality inner).map Nb
  | Wb inner => (ControlFunctions.set_vbr_quality specCtl quality inner).map Wb
  | Uwb inner =>
      (ControlFunctions.set_vbr_quality specCtl quality inner).map Uwb

/-- Facade `get_vbr_quality` (from `shared_functions`). -/
def get_vbr_quality : DynamicCoder → Option (Int × DynamicCoder)
  | Nb inner => (ControlFunctions.get_vbr_quality specCtl inner).map
      (fun p => (p.1, Nb p.2))
  | Wb inner => (ControlFunctions.get_vbr_quality specCtl inner).map
      (fun p => (p.1, Wb p.2))
  | Uwb inner => (ControlFunctions.get_vbr_quality specCtl inner).map
      (fun p => (p.1, Uwb p.2))

/-- Facade `set_vad` (from `shared_functions`). -/
def set_vad (d : DynamicCoder) (vad : Bool) : Option DynamicCoder :=
  match d with
  | Nb inner => (ControlFunctions.set_vad specCtl vad inner).map Nb
  | Wb inner => (ControlFunctions.set_vad specCtl vad inner).map Wb
  | Uwb inner => (ControlFunctions.set_vad specCtl vad inner).map Uwb

/-- Facade `get_vad` (from `shared_functions`). -/
def get_vad : DynamicCoder → Option (Bool × DynamicCoder)
  | Nb inner => (ControlFunctions.get_vad specCtl inner).map
      (fun p => (p.1, Nb p.2))
  | Wb inner => (ControlFunctions.get_vad specCtl inner).map
      (fun p => (p.1, Wb p.2))
  | Uwb inner => (ControlFunctions.get_vad specCtl inner).map
      (fun p => (p.1, Uwb p.2))

/-- Facade `set_abr` (from `shared_functions`). -/
def set_abr (d : DynamicCoder) (abr : Int) : Option DynamicCoder :=
  match d with
  | Nb inner => (ControlFunctions.set_abr specCtl abr inner).map Nb
  | Wb inner => (ControlFunctions.set_abr specCtl abr inner).map Wb
  | Uwb inner => (ControlFunctions.set_abr specCtl abr inner).map Uwb

/-- Facade `get_abr` (from `shared_functions`). -/
def get_abr : DynamicCoder → Option (Int × DynamicCoder)
  | Nb inner => (ControlFunctions.get_abr specCtl inner).map
      (fun p => (p.1, Nb p.2))
  | Wb inner => (ControlFunctions.get_abr specCtl inner).map
      (fun p => (p.1, Wb p.2))
  | Uwb inner => (ControlFunctions.get_abr specCtl inner).map
      (fun p => (p.1, Uwb p.2))

/-- Facade `set_quality` (from `shared_functions`). -/
def set_quality (d : DynamicCoder) (quality : Int) : Option DynamicCoder :=
  match d with
  | Nb inner => (ControlFunctions.set_quality specCtl quality inner).map Nb
  | Wb inner => (ControlFunctions.set_quality specCtl quality inner).map Wb
  | Uwb inner => (ControlFunctions.set_quality specCtl quality inner).map Uwb

/-- Facade `set_bitrate` (from `shared_functions`). -/
def set_bitrate (d : DynamicCoder) (bitrate : Int) : Option DynamicCoder :=
  match d with
  | Nb inner => (ControlFunctions.set_bitrate specCtl bitrate inner).map Nb
  | Wb inner => (ControlFunctions.set_bitrate specCtl bitrate inner).map Wb
  | Uwb inner => (ControlFunctions.set_bitrate specCtl bitrate inner).map Uwb

/-- Facade `get_bitrate` (from `shared_functions`). -/
def get_bitrate : DynamicCoder → Option (Int × DynamicCoder)
  | Nb inner => (ControlFunctions.get_bitrate specCtl inner).map
      (fun p => (p.1, Nb p.2))
  | Wb inner => (ControlFunctions.get_bitrate specCtl inner).map
      (fun p => (p.1, Wb p.2))
  | Uwb inner => (ControlFunctions.get_bitrate specCtl inner).map
      (fun p => (p.1, Uwb p.2))

/-- Facade `set_sampling_rate` (from `shared_functions`). -/
def set_sampling_rate (d : DynamicCoder) (samplingrate : Int) :
    Option DynamicCoder :=
  match d with
  | Nb inner =>
      (ControlFunctions.set_sampling_rate specCtl samplingrate inner).map Nb
  | Wb inner =>
      (ControlFunctions.set_sampling_rate specCtl samplingrate inner).map Wb
  | Uwb inner =>
      (ControlFunctions.set_sampling_rate specCtl samplingrate inner).map Uwb

/-- Facade `get_sampling_rate` (from `shared_functions`). -/
def get_sampling_rate : DynamicCoder → Option (Int × DynamicCoder)
  | Nb inner => (ControlFunctions.get_sampling_rate specCtl inner).map
      (fun p => (p.1, Nb p.2))
  | Wb inner => (ControlFunctions.get_sampling_rate specCtl inner).map
      (fun p => (p.1, Wb p.2))
  | Uwb inner => (ControlFunctions.get_sampling_rate specCtl inner).map
      (fun p => (p.1, Uwb p.2))

/-- Facade `reset_state` (from `shared_functions`). -/
def reset_state (d : DynamicCoder) : Option DynamicCoder :=
  match d with
  | Nb inner => (ControlFunctions.reset_state specCtl inner).map Nb
  | Wb inner => (ControlFunctions.reset_state specCtl inner).map Wb
  | Uwb inner => (ControlFunctions.reset_state specCtl inner).map Uwb

/-- Facade `set_submode_encoding` (from `shared_functions`). -/
def set_submode_encoding (d : DynamicCoder) (submode : Bool) :
    Option DynamicCoder :=
  match d with
  | Nb inner =>
      (ControlFunctions.set_submode_encoding specCtl submode inner).map Nb
  | Wb inner =>
      (ControlFunctions.set_submode_encoding specCtl submode inner).map Wb
  | Uwb inner =>
      (ControlFunctions.set_submode_encoding specCtl submode inner).map Uwb

/-- Facade `get_submode_encoding` (from `shared_functions`). -/
def get_submode_encoding : DynamicCoder → Option (Bool × DynamicCoder)
  | Nb inner => (ControlFunctions.get_submode_encoding specCtl inner).map
      (fun p => (p.1, Nb p.2))
  | Wb inner => (ControlFunctions.get_submode_encoding specCtl inner).map
      (fun p => (p.1, Wb p.2))
  | Uwb inner => (ControlFunctions.get_submode_encoding specCtl inner).map
      (fun p => (p.1, Uwb p.2))

/-- Facade `get_lookahead` (from `shared_functions`). -/
def get_lookahead : DynamicCoder → Option (Int × DynamicCoder)
  | Nb inner => (ControlFunctions.get_lookahead specCtl inner).map
      (fun p => (p.1, Nb p.2))
  | Wb inner => (ControlFunctions.get_lookahead specCtl inner).map
      (fun p => (p.1, Wb p.2))
  | Uwb inner => (ControlFunctions.get_lookahead specCtl inner).map
      (fun p => (p.1, Uwb p.2))

/-- Facade `set_plc_tuning` (from `shared_functions`). -/
def set_plc_tuning (d : DynamicCoder) (tuning : Int) : Option DynamicCoder :=
  match d with
  | Nb inner => (ControlFunctions.set_plc_tuning specCtl tuning inner).map Nb
  | Wb inner => (ControlFunctions.set_plc_tuning specCtl tuning inner).map Wb
  | Uwb inner => (ControlFunctions.set_plc_tuning specCtl tuning inner).map Uwb

/-- Facade `get_plc_tuning` (from `shared_functions`). -/
def get_plc_tuning : DynamicCoder → Option (Int × DynamicCoder)
  | Nb inner => (ControlFunctions.get_plc_tuning specCtl inner).map
      (fun p => (p.1, Nb p.2))
  | Wb inner => (ControlFunctions.get_plc_tuning specCtl inner).map
      (fun p => (p.1, Wb p.2))
  | Uwb inner => (ControlFunctions.get_plc_tuning specCtl inner).map
      (fun p => (p.1, Uwb p.2))

/-- Facade `set_vbr_max_bitrate` (from `shared_functions`). -/
def set_vbr_max_bitrate (d : DynamicCoder) (max_bitrate : Int) :
    Option DynamicCoder :=
  match d with
  | Nb inner =>
      (ControlFunctions.set_vbr_max_bitrate specCtl max_bitrate inner).map Nb
  | Wb inner =>
      (ControlFunctions.set_vbr_max_bitrate specCtl max_bitrate inner).map Wb
  | Uwb inner =>
      (ControlFunctions.set_vbr_max_bitrate specCtl max_bitrate inner).map Uwb

/-- Facade `get_vbr_max_bitrate` (from `shared_functions`). -/
def get_vbr_max_bitrate : DynamicCoder → Option (Int × DynamicCoder)
  | Nb inner => (ControlFunctions.get_vbr_max_bitrate specCtl inner).map
      (fun p => (p.1, Nb p.2))
  | Wb inner => (ControlFunctions.get_vbr_max_bitrate specCtl inner).map
      (fun p => (p.1, Wb p.2))
  | Uwb inner => (ControlFunctions.get_vbr_max_bitrate specCtl inner).map
      (fun p => (p.1, Uwb p.2))

/-- Facade `set_highpass` (from `shared_functions`). -/
def set_highpass (d : DynamicCoder) (highpass : Bool) : Option DynamicCoder :=
  match d with
  | Nb inner => (ControlFunctions.set_highpass specCtl highpass inner).map Nb
  | Wb inner => (ControlFunctions.set_highpass specCtl highpass inner).map Wb
  | Uwb inner => (ControlFunctions.set_highpass specCtl highpass inner).map Uwb

/-- Facade `get_highpass` (from `shared_functions`). -/
def get_highpass : DynamicCoder → Option (Bool × DynamicCoder)
  | Nb inner => (ControlFunctions.get_highpass specCtl inner).map
      (fun p => (p.1, Nb p.2))
  | Wb inner => (ControlFunctions.get_highpass specCtl inner).map
      (fun p => (p.1, Wb p.2))
  | Uwb inner => (ControlFunctions.get_highpass specCtl inner).map
      (fun p => (p.1, Uwb p.2))

end DynamicCoder

/-! ### Operation sequences over the control surface

To compare a facade with a plain per-mode handle on arbitrary call
sequences, the control surface is reified as an alphabet of operations,
interpreted both directly on a handle (`runOp`) and through the facade
(`runOpDyn`). -/

/-- One call of the Control Dispatch surface, with its argument. -/
inductive CtlOp where
  | opGetFrameSize
  | opSetVbr (b : Bool)
  | opGetVbr
  | opSetVbrQuality (q : Int)
  | opGetVbrQuality
  | opSetVad (b : Bool)
  | opGetVad
  | opSetAbr (v : Int)
  | opGetAbr
  | opSetQuality (v : Int)
  | opSetBitrate (v : Int)
  | opGetBitrate
  | opSetSamplingRate (v : Int)
  | opGetSamplingRate
  | opResetState
  | opSetSubmodeEncoding (b : Bool)
  | opGetSubmodeEncoding
  | opGetLookahead
  | opSetPlcTuning (v : Int)
  | opGetPlcTuning
  | opSetVbrMaxBitrate (v : Int)
  | opGetVbrMaxBitrate
  | opSetHighpass (b : Bool)
  | opGetHighpass
deriving DecidableEq, Repr

/-- The value an operation returns to the caller. -/
inductive CtlOut where
  | outInt (v : Int)
  | outBool (b : Bool)
  | outUnit
deriving DecidableEq, Repr

/-- Interpret one operation directly on a non-polymorphic handle. -/
def runOp : CtlOp → EngineState → Option (CtlOut × EngineState)
  | CtlOp.opGetFrameSize, s => (ControlFunctions.get_frame_size specCtl s).map
      (fun p => (CtlOut.outInt p.1, p.2))
  | CtlOp.opSetVbr b, s => (ControlFunctions.set_vbr specCtl b s).map
      (fun t => (CtlOut.outUnit, t))
  | CtlOp.opGetVbr, s => (ControlFunctions.get_vbr specCtl s).map
      (fun p => (CtlOut.outBool p.1, p.2))
  | CtlOp.opSetVbrQuality q, s =>
      (ControlFunctions.set_vbr_quality specCtl q s).map
        (fun t => (CtlOut.outUnit, t))
  | CtlOp.opGetVbrQuality, s => (ControlFunctions.get_vbr_quality specCtl s).map
      (fun p => (CtlOut.outInt p.1, p.2))
  | CtlOp.opSetVad b, s => (ControlFunctions.set_vad specCtl b s).map
      (fun t => (CtlOut.outUnit, t))
  | CtlOp.opGetVad, s => (ControlFunctions.get_vad specCtl s).map
      (fun p => (CtlOut.outBool p.1, p.2))
  | CtlOp.opSetAbr v, s => (ControlFunctions.set_abr specCtl v s).map
      (fun t => (CtlOut.outUnit, t))
  | CtlOp.opGetAbr, s => (ControlFunctions.get_abr specCtl s).map
      (fun p => (CtlOut.outInt p.1, p.2))
  | CtlOp.opSetQuality v, s => (ControlFunctions.set_quality specCtl v s).map
      (fun t => (CtlOut.outUnit, t))
  | CtlOp.opSetBitrate v, s => (ControlFunctions.set_bitrate specCtl v s).map
      (fun t => (CtlOut.outUnit, t))
  | CtlOp.opGetBitrate, s => (ControlFunctions.get_bitrate specCtl s).map
      (fun p => (CtlOut.outInt p.1, p.2))
  | CtlOp.opSetSamplingRate v, s =>
      (ControlFunctions.set_sampling_rate specCtl v s).map
        (fun t => (CtlOut.outUnit, t))
  | CtlOp.opGetSamplingRate, s =>
      (ControlFunctions.get_sampling_rate specCtl s).map
        (fun p => (CtlOut.outInt p.1, p.2))
  | CtlOp.opResetState, s => (ControlFunctions.reset_state specCtl s).map
      (fun t => (CtlOut.outUnit, t))
  | CtlOp.opSetSubmodeEncoding b, s =>
      (ControlFunctions.set_submode_encoding specCtl b s).map
        (fun t => (CtlOut.outUnit, t))
  | CtlOp.opGetSubmodeEncoding, s =>
      (ControlFunctions.get_submode_encoding specCtl s).map
        (fun p => (CtlOut.outBool p.1, p.2))
  | CtlOp.opGetLookahead, s => (ControlFunctions.get_lookahead specCtl s).map
      (fun p => (CtlOut.outInt p.1, p.2))
  | CtlOp.opSetPlcTuning v, s =>
      (ControlFunctions.set_plc_tuning specCtl v s).map
        (fun t => (CtlOut.outUnit, t))
  | CtlOp.opGetPlcTuning, s => (ControlFunctions.get_plc_tuning specCtl s).map
      (fun p => (CtlOut.outInt p.1, p.2))
  | CtlOp.opSetVbrMaxBitrate v, s =>
      (ControlFunctions.set_vbr_max_bitrate specCtl v s).map
        (fun t => (CtlOut.outUnit, t))
  | CtlOp.opGetVbrMaxBitrate, s =>
      (ControlFunctions.get_vbr_max_bitrate specCtl s).map
        (fun p => (CtlOut.outInt p.1, p.2))
  | CtlOp.opSetHighpass b, s => (ControlFunctions.set_highpass specCtl b s).map
      (fun t => (CtlOut.outUnit, t))
  | CtlOp.opGetHighpass, s => (ControlFunctions.get_highpass specCtl s).map
      (fun p => (CtlOut.outBool p.1, p.2))

/-- Interpret one operation through the facade's forwarded methods. -/
def runOpDyn : CtlOp → DynamicCoder → Option (CtlOut × DynamicCoder)
  | CtlOp.opGetFrameSize, d =>
      d.get_frame_size.map (fun p => (CtlOut.outInt p.1, p.2))
  | CtlOp.opSetVbr b, d => (d.set_vbr b).map (fun t => (CtlOut.outUnit, t))
  | CtlOp.opGetVbr, d => d.get_vbr.map (fun p => (CtlOut.outBool p.1, p.2))
  | CtlOp.opSetVbrQuality q, d =>
      (d.set_vbr_quality q).map (fun t => (CtlOut.outUnit, t))
  | CtlOp.opGetVbrQuality, d =>
      d.get_vbr_quality.map (fun p => (CtlOut.outInt p.1, p.2))
  | CtlOp.opSetVad b, d => (d.set_vad b).map (fun t => (CtlOut.outUnit, t))
  | CtlOp.opGetVad, d => d.get_vad.map (fun p => (CtlOut.outBool p.1, p.2))
  | CtlOp.opSetAbr v, d => (d.set_abr v).map (fun t => (CtlOut.outUnit, t))
  | CtlOp.opGetAbr, d => d.get_abr.map (fun p => (CtlOut.outInt p.1, p.2))
  | CtlOp.opSetQuality v, d =>
      (d.set_quality v).map (fun t => (CtlOut.outUnit, t))
  | CtlOp.opSetBitrate v, d =>
      (d.set_bitrate v).map (fun t => (CtlOut.outUnit, t))
  | CtlOp.opGetBitrate, d =>
      d.get_bitrate.map (fun p => (CtlOut.outInt p.1, p.2))
  | CtlOp.opSetSamplingRate v, d =>
      (d.set_sampling_rate v).map (fun t => (CtlOut.outUnit, t))
  | CtlOp.opGetSamplingRate, d =>
      d.get_sampling_rate.map (fun p => (CtlOut.outInt p.1, p.2))
  | CtlOp.opResetState, d => d.reset_state.map (fun t => (CtlOut.outUnit, t))
  | CtlOp.opSetSubmodeEncoding b, d =>
      (d.set_submode_encoding b).map (fun t => (CtlOut.outUnit, t))
  | CtlOp.opGetSubmodeEncoding, d =>
      d.get_submode_encoding.map (fun p => (CtlOut.outBool p.1, p.2))
  | CtlOp.opGetLookahead, d =>
      d.get_lookahead.map (fun p => (CtlOut.outInt p.1, p.2))
  | CtlOp.opSetPlcTuning v, d =>
      (d.set_plc_tuning v).map (fun t => (CtlOut.outUnit, t))
  | CtlOp.opGetPlcTuning, d =>
      d.get_plc_tuning.map (fun p => (CtlOut.outInt p.1, p.2))
  | CtlOp.opSetVbrMaxBitrate v, d =>
      (d.set_vbr_max_bitrate v).map (fun t => (CtlOut.outUnit, t))
  | CtlOp.opGetVbrMaxBitrate, d =>
      d.get_vbr_max_bitrate.map (fun p => (CtlOut.outInt p.1, p.2))
  | CtlOp.opSetHighpass b, d =>
      (d.set_highpass b).map (fun t => (CtlOut.outUnit, t))
  | CtlOp.opGetHighpass, d =>
      d.get_highpass.map (fun p => (CtlOut.outBool p.1, p.2))

/-- Run a sequence of operations directly on a handle, collecting results. -/
def runOps : List CtlOp → EngineState → Option (List CtlOut × EngineState)
  | [], s => some ([], s)
  | op :: rest, s =>
      (runOp op s).bind fun p =>
        (runOps rest p.2).map fun q => (p.1 :: q.1, q.2)

/-- Run a sequence of operations through the facade, collecting results. -/
def runOpsDyn :
    List CtlOp → DynamicCoder → Option (List CtlOut × DynamicCoder)
  | [], d => some ([], d)
  | op :: rest, d =>
      (runOpDyn op d).bind fun p =>
        (runOpsDyn rest p.2).map fun q => (p.1 :: q.1, q.2)

/-! ### Mode registry (`ModeId::get_mode` / `ModeId::get_frame_size`)

The engine's static mode table is an external collaborator (spec §2:
"Pure lookup, no mutable state"; §6: `lookup_mode` is "never null for the
three defined selectors").  It is modelled as a pure, process-constant
function from the selector to a descriptor carrying the native frame
length. -/

/-- An engine mode descriptor, as far as this layer observes it: the
mode id and the native frame length `speex_mode_query` reports for
`SPEEX_MODE_FRAME_SIZE`. -/
structure SpeexMode where
  modeId : Int
  frameSize : Int
deriving DecidableEq, Repr

/-- Modelled from the spec: `speex_lib_get_mode`, the engine's static mode
table (spec §6) — a pure lookup onto process-wide constants, never null for
the three defined selectors.  Frame lengths are the engine's fixed 20 ms
frames at 8/16/32 kHz. -/
def speex_lib_get_mode (id : Int) : SpeexMode :=
  if id = SPEEX_MODEID_NB then { modeId := SPEEX_MODEID_NB, frameSize := 160 }
  else if id = SPEEX_MODEID_WB then
    { modeId := SPEEX_MODEID_WB, frameSize := 320 }
  else { modeId := SPEEX_MODEID_UWB, frameSize := 640 }

/-- Modelled from the spec: `speex_mode_query(mode, SPEEX_MODE_FRAME_SIZE)`
writes the descriptor's native frame length into the out-buffer. -/
def speex_mode_query_frame_size (mode : SpeexMode) : Int :=
  mode.frameSize

/-- Source `ModeId::get_mode`: resolves the selector through the engine's static
mode table. -/
def ModeId.get_mode (m : ModeId) : SpeexMode :=
  speex_lib_get_mode m.toI32

/-- Source `ModeId::get_frame_size`: looks the mode up and queries its frame
length. -/
def ModeId.get_frame_size (m : ModeId) : Int :=
  speex_mode_query_frame_size (speex_lib_get_mode m.toI32)

/-! ### Handle lifecycle (`mode.rs`)

`SpeexEncoder::new` resolves the mode, calls the engine constructor and
stores the raw handle; `Drop::drop` passes that stored handle to the
matching engine destructor.  The embedding records every engine call in a
trace; Rust's drop guarantee — the destructor runs exactly once, on every
exit path — is embedded by placing exactly one `drop` at the end of a
wrapper's lifetime trace. -/

/-- One call into the engine's lifecycle entry points.  `ret`/`h` are raw
handle values (addresses), modelled as `Nat`. -/
inductive EngineCall where
  | encoderInit (mode : ModeId) (ret : Nat)
  | encoderDestroy (h : Nat)
  | decoderInit (mode : ModeId) (ret : Nat)
  | decoderDestroy (h : Nat)
deriving DecidableEq, Repr

/-- Is this call an engine destroy (of either kind)? -/
def EngineCall.isDestroy : EngineCall → Bool
  | .encoderDestroy _ => true
  | .decoderDestroy _ => true
  | _ => false

/-- Source `SpeexEncoder`: owns the raw handle and the mode it was created with. -/
structure SpeexEncoder where
  encoder_handle : Nat
  mode : SpeexMode
deriving DecidableEq, Repr

/-- Source `SpeexEncoder::new(mode)`: `mode.get_mode()` then
`SpeexEncoderHandle::create` (= `speex_encoder_init`).  `h` is the raw
handle the engine constructor returns; the trace records the constructor
call. -/
def SpeexEncoder.new (mode : ModeId) (h : Nat) :
    SpeexEncoder × List EngineCall :=
  ({ encoder_handle := h, mode := mode.get_mode },
   [EngineCall.encoderInit mode h])

/-- Source `Drop for SpeexEncoder`: `SpeexEncoderHandle::destroy(self.encoder_handle)`
(= `speex_encoder_destroy`). -/
def SpeexEncoder.drop (e : SpeexEncoder) : List EngineCall :=
  [EngineCall.encoderDestroy e.encoder_handle]

/-- Source `SpeexDecoder`: same shape (the field is named `encoder_handle` in the
source for the decoder as well). -/
structure SpeexDecoder where
  encoder_handle : Nat
  mode : SpeexMode
deriving DecidableEq, Repr

/-- Source `SpeexDecoder::new(mode)`: `mode.get_mode()` then
`SpeexDecoderHandle::create` (= `speex_decoder_init`). -/
def SpeexDecoder.new (mode : ModeId) (h : Nat) :
    SpeexDecoder × List EngineCall :=
  ({ encoder_handle := h, mode := mode.get_mode },
   [EngineCall.decoderInit mode h])

/-- Source `Drop for SpeexDecoder`: `SpeexDecoderHandle::destroy(self.encoder_handle)`
(= `speex_decoder_destroy`). -/
def SpeexDecoder.drop (d : SpeexDecoder) : List EngineCall :=
  [EngineCall.decoderDestroy d.encoder_handle]

/-- The engine calls across a `SpeexEncoder`'s whole lifetime: construction,
then drop — which Rust runs exactly once, on every exit path.  Control
operations in between go through `ctl` only and never touch the lifecycle
entry points. -/
def encoderLifetimeTrace (mode : ModeId) (h : Nat) : List EngineCall :=
  (SpeexEncoder.new mode h).2 ++ SpeexEncoder.drop (SpeexEncoder.new mode h).1

/-- The engine calls across a `SpeexDecoder`'s whole lifetime. -/
def decoderLifetimeTrace (mode : ModeId) (h : Nat) : List EngineCall :=
  (SpeexDecoder.new mode h).2 ++ SpeexDecoder.drop (SpeexDecoder.new mode h).1

/-! ### Stereo fold state (`stereo_state.rs`) -/

/-- The engine's stereo context value (`speex_sys::SpeexStereoState`).  Its
float fields are carried opaquely as bit patterns: this layer never reads
or computes on them, it only copies the struct and passes addresses. -/
structure SysStereoState where
  balance : Int
  e_ratio : Int
  smooth_left : Int
  smooth_right : Int
  reserved1 : Int
  reserved2 : Int
deriving DecidableEq, Repr

/-- Modelled from the spec: the default stereo-folding coefficients the
engine writes on `speex_stereo_state_init` and restores on
`speex_stereo_state_reset` (spec §4.5: reset "restores the same defaults in
place"). -/
def stereoDefaults : SysStereoState :=
  { balance := 1, e_ratio := 1, smooth_left := 1, smooth_right := 1
    reserved1 := 0, reserved2 := 0 }

/-- One call into the engine's stereo entry points.  Pointers are modelled
as `Nat` addresses. -/
inductive StereoCall where
  | initCall (ret : Nat)
  | resetCall (ptr : Nat)
  | destroyCall (ptr : Nat)
deriving DecidableEq, Repr

/-- The address a destroy call frees, if this is one. -/
def StereoCall.destroyTarget : StereoCall → Option Nat
  | .destroyCall p => some p
  | _ => none

/-- Source `SpeexStereoState`: the wrapper owns `backing`, an inline by-value copy
of the engine-initialized context.  `addr` is the address of that inline
`backing` field (`&mut self.backing`), which is what `reset` and `drop`
pass to the engine. -/
structure SpeexStereoState where
  addr : Nat
  backing : SysStereoState
deriving DecidableEq, Repr

/-- Source `SpeexStereoState::new()`: calls `speex_stereo_state_init()`, which
returns a heap context at `engineAddr` holding the defaults, dereferences
and copies it by value into `backing` (living at `rustAddr`), and drops the
raw pointer on the floor — it is never stored and never destroyed. -/
def SpeexStereoState.new (engineAddr rustAddr : Nat) :
    SpeexStereoState × List StereoCall :=
  ({ addr := rustAddr, backing := stereoDefaults },
   [StereoCall.initCall engineAddr])

/-- Source `SpeexStereoState::reset()`: passes `&mut self.backing` to
`speex_stereo_state_reset`, which rewrites the defaults in place at that
address.  The owned slot is unchanged. -/
def SpeexStereoState.reset (st : SpeexStereoState) :
    SpeexStereoState × List StereoCall :=
  ({ st with backing := stereoDefaults }, [StereoCall.resetCall st.addr])

/-- Source `Drop for SpeexStereoState`: passes `&mut self.backing` to
`speex_stereo_state_destroy`. -/
def SpeexStereoState.drop (st : SpeexStereoState) : List StereoCall :=
  [StereoCall.destroyCall st.addr]

/-- Runs `n` consecutive `reset()` calls, collecting the engine calls made. -/
def SpeexStereoState.resetN :
    Nat → SpeexStereoState → SpeexStereoState × List StereoCall
  | 0, st => (st, [])
  | n + 1, st =>
      let p := st.reset
      let q := SpeexStereoState.resetN n p.1
      (q.1, p.2 ++ q.2)

/-- The engine calls across a stereo state's whole lifetime: creation,
`n` resets, then the drop Rust runs exactly once. -/
def stereoLifetimeTrace (engineAddr rustAddr n : Nat) : List StereoCall :=
  let c := SpeexStereoState.new engineAddr rustAddr
  let r := SpeexStereoState.resetN n c.1
  c.2 ++ r.2 ++ SpeexStereoState.drop r.1

/-! ## Theorems -/

/-- C1: `check_error` maps the engine's integer result exactly: `0` yields
success, `-1` yields `UnknownRequest(c)` with the exact request code that
was issued, `-2` yields `InvalidParameter`, and every integer outside
`{0, -1, -2}` panics (modelled by `none`) rather than being swallowed or
returned as a recoverable error. -/
theorem check_error_exact_translation :
    (∀ p, check_error 0 p = some (Except.ok ())) ∧
    (∀ c, check_error (-1) (some c) =
      some (Except.error (ControlError.UnknownRequest c))) ∧
    (∀ p, check_error (-2) p =
      some (Except.error ControlError.InvalidParameter)) ∧
    (∀ e p, e ≠ 0 → e ≠ -1 → e ≠ -2 → check_error e p = none) := by
  refine ⟨fun p => by norm_num [check_error], fun c => by norm_num [check_error],
    fun p => by norm_num [check_error], fun e p h0 h1 h2 => by
      simp [check_error, h0, h1, h2]⟩

/-- Closed witness for C1: result `5` (outside `{0, -1, -2}`) panics, and
`-1` carries back exactly the request code `9` that was issued. -/
theorem check_error_exact_translation_witness :
    check_error 5 (some 3) = none ∧
    check_error (-1) (some 9) =
      some (Except.error (ControlError.UnknownRequest 9)) :=
  ⟨check_error_exact_translation.2.2.2 5 (some 3) (by decide) (by decide)
      (by decide),
    check_error_exact_translation.2.1 9⟩

/-- C4: integer-to-selector conversions panic (modelled by `none`) exactly
outside the defined sets — outside `{0, 1, 2}` for `ModeId`, outside
`1..=8` for narrowband submodes, outside `1..=4` for wideband submodes,
outside `{1}` for ultra-wideband — and on every legal integer return the
variant whose `as i32` discriminant equals that integer (round-trip
identity on the legal range). -/
theorem selector_conversions_fail_fast :
    (∀ v : Int, ModeId.fromI32 v = none ↔ ¬(v = 0 ∨ v = 1 ∨ v = 2)) ∧
    (∀ v m, ModeId.fromI32 v = some m → m.toI32 = v) ∧
    (∀ v : Int, NbSubmodeId.fromI32 v = none ↔ ¬(1 ≤ v ∧ v ≤ 8)) ∧
    (∀ v m, NbSubmodeId.fromI32 v = some m → m.toI32 = v) ∧
    (∀ v : Int, WbSubmodeId.fromI32 v = none ↔ ¬(1 ≤ v ∧ v ≤ 4)) ∧
    (∀ v m, WbSubmodeId.fromI32 v = some m → m.toI32 = v) ∧
    (∀ v : Int, UwbSubmodeId.fromI32 v = none ↔ v ≠ 1) ∧
    (∀ v m, UwbSubmodeId.fromI32 v = some m → m.toI32 = v) := by
  refine ⟨fun v => ?_, fun v m h => ?_, fun v => ?_, fun v m h => ?_,
    fun v => ?_, fun v m h => ?_, fun v => ?_, fun v m h => ?_⟩
  · unfold ModeId.fromI32 SPEEX_MODEID_NB SPEEX_MODEID_WB SPEEX_MODEID_UWB
    split_ifs <;> simp_all <;> omega
  · unfold ModeId.fromI32 SPEEX_MODEID_NB SPEEX_MODEID_WB SPEEX_MODEID_UWB
      at h
    split_ifs at h <;> simp_all [ModeId.toI32, SPEEX_MODEID_NB,
      SPEEX_MODEID_WB, SPEEX_MODEID_UWB] <;> (subst h; rfl)
  · unfold NbSubmodeId.fromI32
    split_ifs <;> simp_all <;> omega
  · unfold NbSubmodeId.fromI32 at h
    split_ifs at h <;> simp_all [NbSubmodeId.toI32] <;> (subst h; rfl)
  · unfold WbSubmodeId.fromI32
    split_ifs <;> simp_all <;> omega
  · unfold WbSubmodeId.fromI32 at h
    split_ifs at h <;> simp_all [WbSubmodeId.toI32] <;> (subst h; rfl)
  · unfold UwbSubmodeId.fromI32
    split_ifs <;> simp_all
  · unfold UwbSubmodeId.fromI32 at h
    split_ifs at h <;> simp_all [UwbSubmodeId.toI32] <;> (subst h; rfl)

/-- Closed witness for C4: the round-trip implications applied at concrete
legal inputs of each selector type. -/
theorem selector_conversions_fail_fast_witness :
    ModeId.WideBand.toI32 = 1 ∧ NbSubmodeId.ExtremeLow.toI32 = 8 ∧
    WbSubmodeId.QuantizedHigh.toI32 = 4 ∧ UwbSubmodeId.Only.toI32 = 1 :=
  ⟨selector_conversions_fail_fast.2.1 1 ModeId.WideBand (by decide),
    selector_conversions_fail_fast.2.2.2.1 8 NbSubmodeId.ExtremeLow
      (by decide),
    selector_conversions_fail_fast.2.2.2.2.2.1 4 WbSubmodeId.QuantizedHigh
      (by decide),
    selector_conversions_fail_fast.2.2.2.2.2.2.2 1 UwbSubmodeId.Only
      (by decide)⟩

/-- C8: for each of the three modes, resolving the mode and querying its
frame size is infallible (a total function), returns a positive integer,
agrees with querying the resolved descriptor, and is mode-specific
(distinct modes have distinct frame sizes); as a pure function of the mode
it is stable across repeated calls. -/
theorem frame_size_stable_positive :
    (∀ m : ModeId, 0 < m.get_frame_size) ∧
    (∀ m : ModeId,
      m.get_frame_size = speex_mode_query_frame_size m.get_mode) ∧
    (∀ m1 m2 : ModeId, m1.get_frame_size = m2.get_frame_size → m1 = m2) := by
  refine ⟨fun m => ?_, fun m => ?_, fun m1 m2 hm => ?_⟩
  · cases m <;> norm_num [ModeId.get_frame_size, speex_mode_query_frame_size,
      speex_lib_get_mode, ModeId.toI32, SPEEX_MODEID_NB, SPEEX_MODEID_WB,
      SPEEX_MODEID_UWB]
  · cases m <;> rfl
  · cases m1 <;> cases m2 <;> simp_all [ModeId.get_frame_size,
      speex_mode_query_frame_size, speex_lib_get_mode, ModeId.toI32,
      SPEEX_MODEID_NB, SPEEX_MODEID_WB, SPEEX_MODEID_UWB]

/-- Closed witness for C8: the mode-specificity implication applied at a
concrete pair of equal frame sizes. -/
theorem frame_size_stable_positive_witness :
    ModeId.WideBand = ModeId.WideBand ∧
    ModeId.WideBand.get_frame_size = 320 :=
  ⟨frame_size_stable_positive.2.2 ModeId.WideBand ModeId.WideBand (by decide),
    by decide⟩

/-- C6: across the whole lifetime of a successfully constructed encoder
(resp. decoder), the engine destroy function of the matching kind is
invoked exactly once, on exactly the handle the matching engine
constructor returned — the single drop at end of scope being Rust's
every-exit-path drop guarantee — and no destroy of the other kind or of an
unconstructed handle appears in the trace. -/
theorem handles_destroyed_exactly_once (mode : ModeId) (h : Nat) :
    (encoderLifetimeTrace mode h).filter EngineCall.isDestroy =
      [EngineCall.encoderDestroy h] ∧
    EngineCall.encoderInit mode h ∈ encoderLifetimeTrace mode h ∧
    (decoderLifetimeTrace mode h).filter EngineCall.isDestroy =
      [EngineCall.decoderDestroy h] ∧
    EngineCall.decoderInit mode h ∈ decoderLifetimeTrace mode h := by
  refine ⟨?_, ?_, ?_, ?_⟩ <;>
    simp [encoderLifetimeTrace, decoderLifetimeTrace, SpeexEncoder.new,
      SpeexEncoder.drop, SpeexDecoder.new, SpeexDecoder.drop,
      EngineCall.isDestroy]

/-- C10: every boolean-valued getter returns `true` exactly when the
integer the engine writes into the buffer is nonzero — any nonzero value,
not only `1`, reads back as `true`, and `0` as `false` — for any `ctl`
implementation. -/
theorem bool_getters_decode_nonzero {sigma : Type} (ctl : Ctl sigma)
    (s t1 t2 t3 t4 : sigma) (v1 v2 v3 v4 : Int)
    (h1 : ctl SPEEX_GET_VBR 0 s = Except.ok (v1, t1))
    (h2 : ctl SPEEX_GET_VAD 0 s = Except.ok (v2, t2))
    (h3 : ctl SPEEX_GET_SUBMODE_ENCODING 0 s = Except.ok (v3, t3))
    (h4 : ctl SPEEX_GET_HIGHPASS 0 s = Except.ok (v4, t4)) :
    (ControlFunctions.get_vbr ctl s = some (true, t1) ↔ v1 ≠ 0) ∧
    (ControlFunctions.get_vbr ctl s = some (false, t1) ↔ v1 = 0) ∧
    (ControlFunctions.get_vad ctl s = some (true, t2) ↔ v2 ≠ 0) ∧
    (ControlFunctions.get_vad ctl s = some (false, t2) ↔ v2 = 0) ∧
    (ControlFunctions.get_submode_encoding ctl s = some (true, t3) ↔
      v3 ≠ 0) ∧
    (ControlFunctions.get_submode_encoding ctl s = some (false, t3) ↔
      v3 = 0) ∧
    (ControlFunctions.get_highpass ctl s = some (true, t4) ↔ v4 ≠ 0) ∧
    (ControlFunctions.get_highpass ctl s = some (false, t4) ↔ v4 = 0) := by
  refine ⟨?_, ?_, ?_, ?_, ?_, ?_, ?_, ?_⟩ <;>
    simp [ControlFunctions.get_vbr, ControlFunctions.get_vad,
      ControlFunctions.get_submode_encoding, ControlFunctions.get_highpass,
      h1, h2, h3, h4]

/-- Closed witness for C10: against the modelled engine holding `vbr = 7`
and `highpass = 1`, `get_vbr` decodes the nonzero `7` as `true` and
`get_vad` decodes `0` as `false`. -/
theorem bool_getters_decode_nonzero_witness :
    (ControlFunctions.get_vbr specCtl { zeroEngine with vbr := 7, highpass := 1 } =
      some (true, { zeroEngine with vbr := 7, highpass := 1 }) ↔ (7 : Int) ≠ 0) ∧
    (ControlFunctions.get_vad specCtl { zeroEngine with vbr := 7, highpass := 1 } =
      some (false, { zeroEngine with vbr := 7, highpass := 1 }) ↔ (0 : Int) = 0) :=
  ⟨(bool_getters_decode_nonzero specCtl
      { zeroEngine with vbr := 7, highpass := 1 }
      { zeroEngine with vbr := 7, highpass := 1 }
      { zeroEngine with vbr := 7, highpass := 1 }
      { zeroEngine with vbr := 7, highpass := 1 }
      { zeroEngine with vbr := 7, highpass := 1 }
      7 0 0 1 rfl rfl rfl rfl).1,
    (bool_getters_decode_nonzero specCtl
      { zeroEngine with vbr := 7, highpass := 1 }
      { zeroEngine with vbr := 7, highpass := 1 }
      { zeroEngine with vbr := 7, highpass := 1 }
      { zeroEngine with vbr := 7, highpass := 1 }
      { zeroEngine with vbr := 7, highpass := 1 }
      7 0 0 1 rfl rfl rfl rfl).2.2.2.1⟩

/-- C5: under the precondition that the underlying `ctl` primitive returns
success, every named accessor operation of the control surface returns
normally: its internal error branch (the `.unwrap()` of the `ctl` result,
modelled by `none`) is unreachable. -/
theorem named_ops_never_fail {sigma : Type} (ctl : Ctl sigma) (s : sigma)
    (b : Bool) (q : Int)
    (H : ∀ code v t, ∃ out t1, ctl code v t = Except.ok (out, t1)) :
    (ControlFunctions.get_frame_size ctl s).isSome = true ∧
    (ControlFunctions.set_vbr ctl b s).isSome = true ∧
    (ControlFunctions.get_vbr ctl s).isSome = true ∧
    (ControlFunctions.set_vbr_quality ctl q s).isSome = true ∧
    (ControlFunctions.get_vbr_quality ctl s).isSome = true ∧
    (ControlFunctions.set_vad ctl b s).isSome = true ∧
    (ControlFunctions.get_vad ctl s).isSome = true ∧
    (ControlFunctions.set_abr ctl q s).isSome = true ∧
    (ControlFunctions.get_abr ctl s).isSome = true ∧
    (ControlFunctions.set_quality ctl q s).isSome = true ∧
    (ControlFunctions.set_bitrate ctl q s).isSome = true ∧
    (ControlFunctions.get_bitrate ctl s).isSome = true ∧
    (ControlFunctions.set_sampling_rate ctl q s).isSome = true ∧
    (ControlFunctions.get_sampling_rate ctl s).isSome = true ∧
    (ControlFunctions.reset_state ctl s).isSome = true ∧
    (ControlFunctions.set_submode_encoding ctl b s).isSome = true ∧
    (ControlFunctions.get_submode_encoding ctl s).isSome = true ∧
    (ControlFunctions.get_lookahead ctl s).isSome = true ∧
    (ControlFunctions.set_plc_tuning ctl q s).isSome = true ∧
    (ControlFunctions.get_plc_tuning ctl s).isSome = true ∧
    (ControlFunctions.set_vbr_max_bitrate ctl q s).isSome = true ∧
    (ControlFunctions.get_vbr_max_bitrate ctl s).isSome = true ∧
    (ControlFunctions.set_highpass ctl b s).isSome = true ∧
    (ControlFunctions.get_highpass ctl s).isSome = true := by
  refine ⟨?_, ?_, ?_, ?_, ?_, ?_, ?_, ?_, ?_, ?_, ?_, ?_, ?_, ?_, ?_, ?_,
    ?_, ?_, ?_, ?_, ?_, ?_, ?_, ?_⟩
  · obtain ⟨o, t, hh⟩ := H SPEEX_GET_FRAME_SIZE 0 s
    simp [ControlFunctions.get_frame_size, hh]
  · obtain ⟨o, t, hh⟩ := H SPEEX_SET_VBR (if b then 1 else 0) s
    simp [ControlFunctions.set_vbr, hh]
  · obtain ⟨o, t, hh⟩ := H SPEEX_GET_VBR 0 s
    simp [ControlFunctions.get_vbr, hh]
  · obtain ⟨o, t, hh⟩ := H SPEEX_SET_VBR_QUALITY q s
    simp [ControlFunctions.set_vbr_quality, hh]
  · obtain ⟨o, t, hh⟩ := H SPEEX_GET_VBR_QUALITY 0 s
    simp [ControlFunctions.get_vbr_quality, hh]
  · obtain ⟨o, t, hh⟩ := H SPEEX_SET_VAD (if b then 1 else 0) s
    simp [ControlFunctions.set_vad, hh]
  · obtain ⟨o, t, hh⟩ := H SPEEX_GET_VAD 0 s
    simp [ControlFunctions.get_vad, hh]
  · obtain ⟨o, t, hh⟩ := H SPEEX_SET_ABR q s
    simp [ControlFunctions.set_abr, hh]
  · obtain ⟨o, t, hh⟩ := H SPEEX_GET_ABR 0 s
    simp [ControlFunctions.get_abr, hh]
  · obtain ⟨o, t, hh⟩ := H SPEEX_SET_QUALITY q s
    simp [ControlFunctions.set_quality, hh]
  · obtain ⟨o, t, hh⟩ := H SPEEX_SET_BITRATE q s
    simp [ControlFunctions.set_bitrate, hh]
  · obtain ⟨o, t, hh⟩ := H SPEEX_GET_BITRATE 0 s
    simp [ControlFunctions.get_bitrate, hh]
  · obtain ⟨o, t, hh⟩ := H SPEEX_SET_SAMPLING_RATE q s
    simp [ControlFunctions.set_sampling_rate, hh]
  · obtain ⟨o, t, hh⟩ := H SPEEX_GET_SAMPLING_RATE 0 s
    simp [ControlFunctions.get_sampling_rate, hh]
  · obtain ⟨o, t, hh⟩ := H SPEEX_RESET_STATE 0 s
    simp [ControlFunctions.reset_state, hh]
  · obtain ⟨o, t, hh⟩ := H SPEEX_SET_SUBMODE_ENCODING (if b then 1 else 0) s
    simp [ControlFunctions.set_submode_encoding, hh]
  · obtain ⟨o, t, hh⟩ := H SPEEX_GET_SUBMODE_ENCODING 0 s
    simp [ControlFunctions.get_submode_encoding, hh]
  · obtain ⟨o, t, hh⟩ := H SPEEX_GET_LOOKAHEAD 0 s
    simp [ControlFunctions.get_lookahead, hh]
  · obtain ⟨o, t, hh⟩ := H SPEEX_SET_PLC_TUNING q s
    simp [ControlFunctions.set_plc_tuning, hh]
  · obtain ⟨o, t, hh⟩ := H SPEEX_GET_PLC_TUNING 0 s
    simp [ControlFunctions.get_plc_tuning, hh]
  · obtain ⟨o, t, hh⟩ := H SPEEX_SET_VBR_MAX_BITRATE q s
    simp [ControlFunctions.set_vbr_max_bitrate, hh]
  · obtain ⟨o, t, hh⟩ := H SPEEX_GET_VBR_MAX_BITRATE 0 s
    simp [ControlFunctions.get_vbr_max_bitrate, hh]
  · obtain ⟨o, t, hh⟩ := H SPEEX_SET_HIGHPASS (if b then 1 else 0) s
    simp [ControlFunctions.set_highpass, hh]
  · obtain ⟨o, t, hh⟩ := H SPEEX_GET_HIGHPASS 0 s
    simp [ControlFunctions.get_highpass, hh]

/-- Closed witness for C5: all 24 named operations return normally against
a concrete always-succeeding engine. -/
theorem named_ops_never_fail_witness :
    (ControlFunctions.get_frame_size okCtl ()).isSome = true ∧
    (ControlFunctions.set_vbr okCtl true ()).isSome = true ∧
    (ControlFunctions.get_vbr okCtl ()).isSome = true ∧
    (ControlFunctions.set_vbr_quality okCtl 7 ()).isSome = true ∧
    (ControlFunctions.get_vbr_quality okCtl ()).isSome = true ∧
    (ControlFunctions.set_vad okCtl true ()).isSome = true ∧
    (ControlFunctions.get_vad okCtl ()).isSome = true ∧
    (ControlFunctions.set_abr okCtl 7 ()).isSome = true ∧
    (ControlFunctions.get_abr okCtl ()).isSome = true ∧
    (ControlFunctions.set_quality okCtl 7 ()).isSome = true ∧
    (ControlFunctions.set_bitrate okCtl 7 ()).isSome = true ∧
    (ControlFunctions.get_bitrate okCtl ()).isSome = true ∧
    (ControlFunctions.set_sampling_rate okCtl 7 ()).isSome = true ∧
    (ControlFunctions.get_sampling_rate okCtl ()).isSome = true ∧
    (ControlFunctions.reset_state okCtl ()).isSome = true ∧
    (ControlFunctions.set_submode_encoding okCtl true ()).isSome = true ∧
    (ControlFunctions.get_submode_encoding okCtl ()).isSome = true ∧
    (ControlFunctions.get_lookahead okCtl ()).isSome = true ∧
    (ControlFunctions.set_plc_tuning okCtl 7 ()).isSome = true ∧
    (ControlFunctions.get_plc_tuning okCtl ()).isSome = true ∧
    (ControlFunctions.set_vbr_max_bitrate okCtl 7 ()).isSome = true ∧
    (ControlFunctions.get_vbr_max_bitrate okCtl ()).isSome = true ∧
    (ControlFunctions.set_highpass okCtl true ()).isSome = true ∧
    (ControlFunctions.get_highpass okCtl ()).isSome = true :=
  named_ops_never_fail okCtl () true 7 (fun code v t => ⟨v, t, rfl⟩)

/-- The `n`-fold repetition of a fallible state transformer. -/
def iterateOpt (f : EngineState → Option EngineState) :
    Nat → EngineState → Option EngineState
  | 0, s => some s
  | n + 1, s => (f s).bind (iterateOpt f n)

lemma iterateOpt_const (f : EngineState → Option EngineState)
    (g : EngineState → EngineState) (hf : ∀ s, f s = some (g s))
    (hg : ∀ s, g (g s) = g s) :
    ∀ n s, 1 ≤ n → iterateOpt f n s = some (g s) := by
  intro n
  induction n with
  | zero => intro s hs; omega
  | succ k ih =>
    intro s _
    match k, ih with
    | 0, _ => simp [iterateOpt, hf]
    | m + 1, ih =>
      have step : iterateOpt f (m + 2) s = iterateOpt f (m + 1) (g s) := by
        simp [iterateOpt, hf]
      rw [step, ih (g s) (by omega), hg]

lemma set_vbr_specCtl (b : Bool) (s : EngineState) :
    ControlFunctions.set_vbr specCtl b s =
      some { s with vbr := if b then 1 else 0 } := by
  cases b <;> rfl

lemma set_vad_specCtl (b : Bool) (s : EngineState) :
    ControlFunctions.set_vad specCtl b s =
      some { s with vad := if b then 1 else 0 } := by
  cases b <;> rfl

lemma set_submode_encoding_specCtl (b : Bool) (s : EngineState) :
    ControlFunctions.set_submode_encoding specCtl b s =
      some { s with submode_encoding := if b then 1 else 0 } := by
  cases b <;> rfl

lemma set_highpass_specCtl (b : Bool) (s : EngineState) :
    ControlFunctions.set_highpass specCtl b s =
      some { s with highpass := if b then 1 else 0 } := by
  cases b <;> rfl

/-- C7: for every boolean-valued control operation (vbr, vad,
submode_encoding, highpass), setting `x` and then getting returns `x` for
both `x = true` and `x = false`, and repeating the set any positive number
of times before the get still yields `x` (idempotence), against the
spec-modelled engine. -/
theorem bool_set_get_roundtrip (s : EngineState) (b : Bool) (n : Nat)
    (hn : 1 ≤ n) :
    (iterateOpt (ControlFunctions.set_vbr specCtl b) n s).bind
      (fun t => (ControlFunctions.get_vbr specCtl t).map Prod.fst) =
      some b ∧
    (iterateOpt (ControlFunctions.set_vad specCtl b) n s).bind
      (fun t => (ControlFunctions.get_vad specCtl t).map Prod.fst) =
      some b ∧
    (iterateOpt (ControlFunctions.set_submode_encoding specCtl b) n s).bind
      (fun t =>
        (ControlFunctions.get_submode_encoding specCtl t).map Prod.fst) =
      some b ∧
    (iterateOpt (ControlFunctions.set_highpass specCtl b) n s).bind
      (fun t => (ControlFunctions.get_highpass specCtl t).map Prod.fst) =
      some b := by
  refine ⟨?_, ?_, ?_, ?_⟩
  · rw [iterateOpt_const _ _ (set_vbr_specCtl b) (fun t => rfl) n s hn]
    cases b <;> rfl
  · rw [iterateOpt_const _ _ (set_vad_specCtl b) (fun t => rfl) n s hn]
    cases b <;> rfl
  · rw [iterateOpt_const _ _ (set_submode_encoding_specCtl b) (fun t => rfl)
      n s hn]
    cases b <;> rfl
  · rw [iterateOpt_const _ _ (set_highpass_specCtl b) (fun t => rfl) n s hn]
    cases b <;> rfl

/-- Closed witness for C7: three repeated `set(true)` then `get` on vbr,
and two repeated `set(false)` then `get` on highpass, from the all-zero
engine state. -/
theorem bool_set_get_roundtrip_witness :
    (iterateOpt (ControlFunctions.set_vbr specCtl true) 3 zeroEngine).bind
      (fun t => (ControlFunctions.get_vbr specCtl t).map Prod.fst) =
      some true ∧
    (iterateOpt (ControlFunctions.set_highpass specCtl false) 2
        zeroEngine).bind
      (fun t => (ControlFunctions.get_highpass specCtl t).map Prod.fst) =
      some false :=
  ⟨(bool_set_get_roundtrip zeroEngine true 3 (by decide)).1,
    (bool_set_get_roundtrip zeroEngine false 2 (by decide)).2.2.2⟩

lemma runOpDyn_forwards (op : CtlOp) (m : ModeId) (s : EngineState) :
    runOpDyn op (DynamicCoder.make m s) =
      (runOp op s).map (fun p => (p.1, DynamicCoder.make m p.2)) := by
  cases m <;> cases op <;>
    simp only [runOpDyn, runOp, DynamicCoder.make,
      DynamicCoder.get_frame_size, DynamicCoder.set_vbr, DynamicCoder.get_vbr,
      DynamicCoder.set_vbr_quality, DynamicCoder.get_vbr_quality,
      DynamicCoder.set_vad, DynamicCoder.get_vad, DynamicCoder.set_abr,
      DynamicCoder.get_abr, DynamicCoder.set_quality, DynamicCoder.set_bitrate,
      DynamicCoder.get_bitrate, DynamicCoder.set_sampling_rate,
      DynamicCoder.get_sampling_rate, DynamicCoder.reset_state,
      DynamicCoder.set_submode_encoding, DynamicCoder.get_submode_encoding,
      DynamicCoder.get_lookahead, DynamicCoder.set_plc_tuning,
      DynamicCoder.get_plc_tuning, DynamicCoder.set_vbr_max_bitrate,
      DynamicCoder.get_vbr_max_bitrate, DynamicCoder.set_highpass,
      DynamicCoder.get_highpass, Option.map_map] <;> rfl

/-- C2: the facade built for mode `m` is observationally identical to the
non-polymorphic handle of mode `m`: each single forwarded operation
returns the same result and rewraps the updated inner handle under the
same (unchanged) tag, and hence any sequence of facade operations yields
exactly the results of issuing the same sequence directly on the plain
handle, with the active tag still `m` at every point. -/
theorem dynamic_facade_refines_direct (m : ModeId) (s : EngineState)
    (ops : List CtlOp) :
    (∀ op : CtlOp, runOpDyn op (DynamicCoder.make m s) =
      (runOp op s).map (fun p => (p.1, DynamicCoder.make m p.2))) ∧
    runOpsDyn ops (DynamicCoder.make m s) =
      (runOps ops s).map (fun p => (p.1, DynamicCoder.make m p.2)) ∧
    (DynamicCoder.make m s).tag = m := by
  refine ⟨fun op => runOpDyn_forwards op m s, ?_, ?_⟩
  · induction ops generalizing s with
    | nil => simp [runOpsDyn, runOps]
    | cons op rest ih =>
      simp only [runOpsDyn, runOps, runOpDyn_forwards]
      cases hop : runOp op s with
      | none => rfl
      | some p =>
        show (runOpsDyn rest (DynamicCoder.make m p.2)).map
            (fun q => (p.1 :: q.1, q.2)) =
          ((runOps rest p.2).map (fun q => (p.1 :: q.1, q.2))).map
            (fun r => (r.1, DynamicCoder.make m r.2))
        rw [ih p.2]
        cases runOps rest p.2 <;> rfl
  · cases m <;> rfl

lemma resetN_new (p r n : Nat) :
    SpeexStereoState.resetN n (SpeexStereoState.new p r).1 =
      ({ addr := r, backing := stereoDefaults },
        List.replicate n (StereoCall.resetCall r)) := by
  induction n with
  | zero => rfl
  | succ k ih =>
    simp only [SpeexStereoState.new] at ih ⊢
    simp only [SpeexStereoState.resetN, SpeexStereoState.reset]
    rw [ih]
    simp [List.replicate_succ]

lemma stereoLifetimeTrace_eq (p r n : Nat) :
    stereoLifetimeTrace p r n =
      StereoCall.initCall p ::
        (List.replicate n (StereoCall.resetCall r) ++
          [StereoCall.destroyCall r]) := by
  simp only [stereoLifetimeTrace]
  rw [resetN_new]
  simp [SpeexStereoState.new, SpeexStereoState.drop]

lemma filterMap_replicate_none {α β : Type} (f : α → Option β) (x : α)
    (hx : f x = none) : ∀ n, (List.replicate n x).filterMap f = [] := by
  intro n
  induction n with
  | zero => rfl
  | succ k ih => simp [List.replicate_succ, List.filterMap_cons, hx, ih]

/-- C3: starting from `SpeexStereoState::new()`, any number of `reset()`
calls (including zero, including before any use) returns normally (the
model's reset is a total function) and leaves the state owning the same
context slot — the inline `backing` copy at the same address — and the
automatic destroy at end of scope still releases exactly that one context
exactly once. -/
theorem stereo_reset_preserves_ownership (p r n : Nat) :
    (SpeexStereoState.resetN n (SpeexStereoState.new p r).1).1.addr =
      (SpeexStereoState.new p r).1.addr ∧
    (SpeexStereoState.resetN n (SpeexStereoState.new p r).1).2 =
      List.replicate n (StereoCall.resetCall r) ∧
    (stereoLifetimeTrace p r n).filterMap StereoCall.destroyTarget =
      [(SpeexStereoState.resetN n (SpeexStereoState.new p r).1).1.addr] := by
  refine ⟨by rw [resetN_new]; rfl, by rw [resetN_new], ?_⟩
  rw [resetN_new, stereoLifetimeTrace_eq]
  simp [List.filterMap_cons, List.filterMap_append, StereoCall.destroyTarget,
    filterMap_replicate_none StereoCall.destroyTarget
      (StereoCall.resetCall r) rfl]

/-- C9: construction copies the engine-initialized stereo context by value
into the Rust-owned struct — `backing` holds the defaults the engine wrote
at the context it returned — the engine-allocated context is never passed
to `speex_stereo_state_destroy` (it is leaked), and every reset and the
one destroy operate on the address of the Rust-owned inline copy, not on
the engine-allocated context. -/
theorem stereo_new_copies_by_value_and_leaks (p r n : Nat) (hpr : p ≠ r) :
    (SpeexStereoState.new p r).1.backing = stereoDefaults ∧
    (SpeexStereoState.new p r).1.addr = r ∧
    stereoLifetimeTrace p r n =
      StereoCall.initCall p ::
        (List.replicate n (StereoCall.resetCall r) ++
          [StereoCall.destroyCall r]) ∧
    p ∉ (stereoLifetimeTrace p r n).filterMap StereoCall.destroyTarget := by
  refine ⟨rfl, rfl, stereoLifetimeTrace_eq p r n, ?_⟩
  rw [stereoLifetimeTrace_eq]
  simp [List.filterMap_cons, List.filterMap_append, StereoCall.destroyTarget,
    filterMap_replicate_none StereoCall.destroyTarget
      (StereoCall.resetCall r) rfl, hpr]

/-- Closed witness for C9: engine context at address `1`, Rust copy at
address `0`, two resets. -/
theorem stereo_new_copies_by_value_and_leaks_witness :
    (SpeexStereoState.new 1 0).1.backing = stereoDefaults ∧
    (SpeexStereoState.new 1 0).1.addr = 0 ∧
    stereoLifetimeTrace 1 0 2 =
      StereoCall.initCall 1 ::
        (List.replicate 2 (StereoCall.resetCall 0) ++
          [StereoCall.destroyCall 0]) ∧
    1 ∉ (stereoLifetimeTrace 1 0 2).filterMap StereoCall.destroyTarget :=
  stereo_new_copies_by_value_and_leaks 1 0 2 (by decide)

end SpeexSafe
